import Mathlib

/-!
Shallow embedding of mount.go from the newid-mount repository.

The program orchestrates re-mounting a block device after regenerating its
on-disk UUID.  All effects go through one primitive, ExecCmd, which runs an
external command line and yields (exit code, captured stdout, launch error).
We model the external world as a deterministic response function from the
history of executed command lines and the next command line to that triple,
and we thread the history (the trace) through every operation, so that
temporal claims (stage order, a sub-step never being invoked) become
statements about the trace.  Go panics are modelled by a dedicated result
constructor carrying the panic message.  Machine integers only appear as
process exit codes, modelled by Int (go-cmd reports -1 for launch failures).
-/

namespace NewidMount

/-- The error values of the Go package.  ExecError msg models a non-nil
error value produced by the command executor itself (a process-launch
failure); the other constructors are the package-level error singletons. -/
inductive GoError where
  | ErrUnsFs
  | ErrUnKFs
  | ErrDevUUID
  | ErrGenUUID
  | ErrQueryUUID
  | ErrUMount
  | ErrMount
  | ExecError (msg : String)
deriving DecidableEq

/-- FileSystemType is a string type in the source; its constants. -/
def FsXFS_ : String := "xfs"

def FsExt2 : String := "ext2"

def FsExt3 : String := "ext3"

def FsExt4 : String := "ext4"

def FsNTFs : String := "ntfs"

/-- Caller_ is a string type in the source; its constants (tool names). -/
def CMount : String := "mount"

def CUMount : String := "umount"

def CNTFs3g : String := "ntfs-3g"

def CTune2FS : String := "tune2fs"

def CBlkID : String := "blkid"

def CFile : String := "file"

def CXFSAdmin : String := "xfs_admin"

/-- The external world of one run.  run takes the list of command lines
already executed in this run and the next command line, and yields the exit
code, the captured standard output and the launch error (none unless the
process failed to start).  newUuid models the fresh random value produced
by the uuid.New() call in changeXFS. -/
structure Env where
  run : List String → String → Int × String × Option String
  newUuid : String

/-- strings.ToLower (the tokens compared against are all ASCII). -/
def goToLower (s : String) : String := String.mk (s.data.map Char.toLower)

/-- Is sub an infix (contiguous sublist) of the second list? -/
def infixCheck (sub : List Char) : List Char → Bool
  | [] => sub.isEmpty
  | c :: rest => sub.isPrefixOf (c :: rest) || infixCheck sub rest

/-- strings.Contains(s, sub). -/
def goContains (s sub : String) : Bool := infixCheck sub.data s.data

/-- strings.HasPrefix(s, p). -/
def goStartsWith (s p : String) : Bool := p.data.isPrefixOf s.data

/-- ExecCmd: run one external command line; the result triple comes from
the environment, and the command line is appended to the trace. -/
def ExecCmd (env : Env) (tr : List String) (cmdStr : String) :
    (Int × String × Option String) × List String :=
  (env.run tr cmdStr, tr ++ [cmdStr])

/-- Result of Go code that may terminate the program through panic; the
payload is the panic value rendered as a string (the source panics with
the Caller_ string in IsMount and with the ErrUnsFs error, whose message
is kept here, in GetCallerByFS). -/
inductive PanicOr (α : Type) where
  | ok (a : α)
  | panicked (msg : String)
deriving DecidableEq

/-- GetCallerByFS: the switch mapping a filesystem type to the mount tool;
any value outside the five supported ones hits the default branch, which
panics with ErrUnsFs. -/
def GetCallerByFS (fs : String) : PanicOr String :=
  if fs = FsExt2 ∨ fs = FsExt3 ∨ fs = FsExt4 ∨ fs = FsXFS_ then
    PanicOr.ok CMount
  else if fs = FsNTFs then
    PanicOr.ok CNTFs3g
  else
    PanicOr.panicked "unsupported file system type"

/-- Scan for the lazily matched capture of the Go regular expression
fragment .*? followed by a closing double quote: the characters up to the
first closing quote, failing if a newline or the end of input comes first
(a dot in a Go regular expression does not match a newline). -/
def scanCapture : List Char → Option (List Char)
  | [] => none
  | c :: rest =>
    if c = '"' then some []
    else if c = '\n' then none
    else (scanCapture rest).map (fun l => c :: l)

/-- FindStringSubmatch for the Go pattern that matches a uuid= token with
a quoted lazy capture: try every start position from the left; at a
position where the literal part matches, the match completes exactly when
a closing quote follows before any newline. -/
def findUuidCapture : List Char → Option (List Char)
  | [] => none
  | c :: rest =>
    if ("uuid=\"".data).isPrefixOf (c :: rest) then
      match scanCapture ((c :: rest).drop 6) with
      | some cap => some cap
      | none => findUuidCapture rest
    else findUuidCapture rest

/-- QueryDeviceUUID: run the blkid pipeline, lower-case the output and
extract the first quoted uuid= capture.  Mirrors the Go named results
(uuid string, err error): on every failure the returned string is empty
and the error is ErrDevUUID. -/
def QueryDeviceUUID (env : Env) (tr : List String) (dev : String) :
    (String × Option GoError) × List String :=
  let c := CBlkID ++ " | grep " ++ dev
  let e := ExecCmd env tr c
  if e.1.1 ≠ 0 then
    (("", some GoError.ErrDevUUID), e.2)
  else
    match findUuidCapture (goToLower e.1.2.1).data with
    | some cap => ((String.mk cap, none), e.2)
    | none => (("", some GoError.ErrDevUUID), e.2)

/-- UMount: invoke the unmount tool; ErrUMount on nonzero exit. -/
def UMount (env : Env) (tr : List String) (path_ : String) :
    Option GoError × List String :=
  let e := ExecCmd env tr (CUMount ++ " " ++ path_)
  if e.1.1 ≠ 0 then (some GoError.ErrUMount, e.2) else (none, e.2)

/-- Mount: choose the tool (ntfs-3g for ntfs, the generic mount tool
otherwise), invoke it with the options string ctx_, the device and the
path; ErrMount on nonzero exit. -/
def Mount (env : Env) (tr : List String) (fs dev path_ ctx_ : String) :
    Option GoError × List String :=
  let __c := if fs = FsNTFs then CNTFs3g else CMount
  let e := ExecCmd env tr (__c ++ " " ++ ctx_ ++ " " ++ dev ++ " " ++ path_)
  if e.1.1 ≠ 0 then (some GoError.ErrMount, e.2) else (none, e.2)

/-- IsMount: list current mounts by running the mount tool with no
arguments; panic with the tool name on nonzero exit, otherwise report
whether the queried string followed by a space occurs in the output. -/
def IsMount (env : Env) (tr : List String) (path_ : String) :
    PanicOr Bool × List String :=
  let e := ExecCmd env tr CMount
  if e.1.1 ≠ 0 then (PanicOr.panicked CMount, e.2)
  else if goContains e.1.2.1 (path_ ++ " ") then (PanicOr.ok true, e.2)
  else (PanicOr.ok false, e.2)

/-- GenExtDevUUID: randomize the UUID of an ext-family device;
ErrGenUUID on nonzero exit. -/
def GenExtDevUUID (env : Env) (tr : List String) (dev : String) :
    Option GoError × List String :=
  let e := ExecCmd env tr (CTune2FS ++ " -U random " ++ dev)
  if e.1.1 ≠ 0 then (some GoError.ErrGenUUID, e.2) else (none, e.2)

/-- GenXFSDevUUID: assign the given UUID to an XFS device;
ErrGenUUID on nonzero exit. -/
def GenXFSDevUUID (env : Env) (tr : List String) (uuid_ dev : String) :
    Option GoError × List String :=
  let e := ExecCmd env tr (CXFSAdmin ++ " -U " ++ uuid_ ++ " " ++ dev)
  if e.1.1 ≠ 0 then (some GoError.ErrGenUUID, e.2) else (none, e.2)

/-- The embedded args_ field of DevMounter (device path, mount path,
reserved context; the context is opaque and modelled as a string). -/
structure MArgs where
  dev : String
  path_ : String
  ctx : String
deriving DecidableEq

/-- The DevMounter session state; the Go zero values of the caller_, fs
and uuid_ string fields are empty strings. -/
structure DevMounter where
  args_ : MArgs
  caller_ : String
  fs : String
  uuid_ : String
deriving DecidableEq

/-- NewMounterWithArgs: allocate a fresh session holding the inputs; the
remaining fields keep their zero values. -/
def NewMounterWithArgs (dev path_ : String) (ctx : String) : DevMounter :=
  { args_ := { dev := dev, path_ := path_, ctx := ctx },
    caller_ := "", fs := "", uuid_ := "" }

/-- bindFS: probe the device with the file tool, lower-case the output; if
the probe exits nonzero, return the launch error (which is nil when the
process started but exited nonzero); otherwise scan the five supported
types in order and bind the first whose name occurs in the output, or
fail with ErrUnKFs when none does. -/
def DevMounter.bindFS (m : DevMounter) (env : Env) (tr : List String) :
    (DevMounter × Option GoError) × List String :=
  let e := ExecCmd env tr (CFile ++ " -sL " ++ m.args_.dev)
  let out := goToLower e.1.2.1
  if e.1.1 ≠ 0 then
    ((m, (e.1.2.2).map GoError.ExecError), e.2)
  else
    match [FsExt2, FsExt3, FsExt4, FsXFS_, FsNTFs].find?
        (fun v => goContains out v) with
    | some v => (({ m with fs := v }, none), e.2)
    | none => ((m, some GoError.ErrUnKFs), e.2)

/-- bindCaller: record the tool chosen by GetCallerByFS (which may
panic); always returns a nil error otherwise. -/
def DevMounter.bindCaller (m : DevMounter) :
    PanicOr (DevMounter × Option GoError) :=
  match GetCallerByFS m.fs with
  | PanicOr.ok c => PanicOr.ok ({ m with caller_ := c }, none)
  | PanicOr.panicked s => PanicOr.panicked s

/-- BindArgs: bindFS then bindCaller, stopping at the first error. -/
def DevMounter.BindArgs (m : DevMounter) (env : Env) (tr : List String) :
    PanicOr (DevMounter × Option GoError) × List String :=
  let r := m.bindFS env tr
  match r.1.2 with
  | some e => (PanicOr.ok (r.1.1, some e), r.2)
  | none => (r.1.1.bindCaller, r.2)

/-- changeEXT: randomize the device UUID, then query it back; the Go
assignment stores the queried string into uuid_ even when the query
fails (in which case the stored string is empty and the returned error
is ErrQueryUUID). -/
def DevMounter.changeEXT (m : DevMounter) (env : Env) (tr : List String) :
    (DevMounter × Option GoError) × List String :=
  let g := GenExtDevUUID env tr m.args_.dev
  match g.1 with
  | some e => ((m, some e), g.2)
  | none =>
    let q := QueryDeviceUUID env g.2 m.args_.dev
    let m' := { m with uuid_ := q.1.1 }
    match q.1.2 with
    | some _ => ((m', some GoError.ErrQueryUUID), q.2)
    | none => ((m', none), q.2)

/-- changeXFS: draw a fresh UUID, register the device by mounting it
read-write with the nouuid option and unmounting it (the inner
__registerXFSDev closure, which unmounts the device path), and only then
assign the new UUID; stop at the first failing sub-step. -/
def DevMounter.changeXFS (m : DevMounter) (env : Env) (tr : List String) :
    (DevMounter × Option GoError) × List String :=
  let uuid_ := env.newUuid
  let r1 := Mount env tr m.fs m.args_.dev m.args_.path_ "-o rw,nouuid"
  match r1.1 with
  | some e => ((m, some e), r1.2)
  | none =>
    let r2 := UMount env r1.2 m.args_.dev
    match r2.1 with
    | some e => ((m, some e), r2.2)
    | none =>
      let r3 := GenXFSDevUUID env r2.2 uuid_ m.args_.dev
      match r3.1 with
      | some e => ((m, some e), r3.2)
      | none => ((m, none), r3.2)

/-- changeNTFs: an explicit no-op that always succeeds. -/
def DevMounter.changeNTFs (m : DevMounter) (_env : Env) (tr : List String) :
    (DevMounter × Option GoError) × List String :=
  ((m, none), tr)

/-- ChangeDevUUID: dispatch on the bound filesystem type; unrecognized
values fail with ErrUnsFs. -/
def DevMounter.ChangeDevUUID (m : DevMounter) (env : Env) (tr : List String) :
    (DevMounter × Option GoError) × List String :=
  if goStartsWith m.fs "ext" then m.changeEXT env tr
  else if m.fs = FsNTFs then m.changeNTFs env tr
  else if m.fs = FsXFS_ then m.changeXFS env tr
  else ((m, some GoError.ErrUnsFs), tr)

/-- MountDevice: plain mount of the device at the target path with an
empty options string. -/
def DevMounter.MountDevice (m : DevMounter) (env : Env) (tr : List String) :
    (DevMounter × Option GoError) × List String :=
  let r := Mount env tr m.fs m.args_.dev m.args_.path_ ""
  ((m, r.1), r.2)

/-- Check: succeed when IsMount reports either the device or the target
path mounted (the disjunction short-circuits, and either call can
panic); otherwise fail with ErrMount. -/
def DevMounter.Check (m : DevMounter) (env : Env) (tr : List String) :
    PanicOr (DevMounter × Option GoError) × List String :=
  let r1 := IsMount env tr m.args_.dev
  match r1.1 with
  | PanicOr.panicked s => (PanicOr.panicked s, r1.2)
  | PanicOr.ok true => (PanicOr.ok (m, none), r1.2)
  | PanicOr.ok false =>
    let r2 := IsMount env r1.2 m.args_.path_
    match r2.1 with
    | PanicOr.panicked s => (PanicOr.panicked s, r2.2)
    | PanicOr.ok true => (PanicOr.ok (m, none), r2.2)
    | PanicOr.ok false => (PanicOr.ok (m, some GoError.ErrMount), r2.2)

/-- Start: run BindArgs, ChangeDevUUID, MountDevice and Check in that
order, returning at the first stage whose error is non-nil. -/
def DevMounter.Start (m : DevMounter) (env : Env) (tr : List String) :
    PanicOr (DevMounter × Option GoError) × List String :=
  let r1 := m.BindArgs env tr
  match r1.1 with
  | PanicOr.panicked s => (PanicOr.panicked s, r1.2)
  | PanicOr.ok (m1, some e) => (PanicOr.ok (m1, some e), r1.2)
  | PanicOr.ok (m1, none) =>
    let r2 := m1.ChangeDevUUID env r1.2
    match r2.1.2 with
    | some e => (PanicOr.ok (r2.1.1, some e), r2.2)
    | none =>
      let r3 := r2.1.1.MountDevice env r2.2
      match r3.1.2 with
      | some e => (PanicOr.ok (r3.1.1, some e), r3.2)
      | none =>
        let r4 := r3.1.1.Check env r3.2
        (r4.1, r4.2)

/-! ## Shared helper lemmas -/

theorem bindFS_args (m : DevMounter) (env : Env) (tr : List String) :
    ((m.bindFS env tr).1.1).args_ = m.args_ := by
  simp only [DevMounter.bindFS]
  split
  · rfl
  · split <;> rfl

theorem BindArgs_fst_args (m : DevMounter) (env : Env) (tr : List String)
    (p : DevMounter × Option GoError) :
    (m.BindArgs env tr).1 = PanicOr.ok p → p.1.args_ = m.args_ := by
  simp only [DevMounter.BindArgs]
  split
  · intro h
    cases h
    exact bindFS_args m env tr
  · simp only [DevMounter.bindCaller]
    split
    · intro h
      cases h
      exact bindFS_args m env tr
    · intro h
      cases h

theorem changeEXT_args (m : DevMounter) (env : Env) (tr : List String) :
    ((m.changeEXT env tr).1.1).args_ = m.args_ := by
  simp only [DevMounter.changeEXT]
  split
  · rfl
  · split <;> rfl

theorem changeXFS_args (m : DevMounter) (env : Env) (tr : List String) :
    ((m.changeXFS env tr).1.1).args_ = m.args_ := by
  simp only [DevMounter.changeXFS]
  split
  · rfl
  · split
    · rfl
    · split <;> rfl

theorem ChangeDevUUID_args (m : DevMounter) (env : Env) (tr : List String) :
    ((m.ChangeDevUUID env tr).1.1).args_ = m.args_ := by
  simp only [DevMounter.ChangeDevUUID]
  split
  · exact changeEXT_args m env tr
  · split
    · rfl
    · split
      · exact changeXFS_args m env tr
      · rfl

theorem MountDevice_fst_state (m : DevMounter) (env : Env) (tr : List String) :
    ((m.MountDevice env tr).1.1) = m := rfl

theorem Check_fst_state (m : DevMounter) (env : Env) (tr : List String)
    (p : DevMounter × Option GoError) :
    (m.Check env tr).1 = PanicOr.ok p → p.1 = m := by
  simp only [DevMounter.Check]
  split
  · intro h
    cases h
  · intro h
    cases h
    rfl
  · split
    · intro h
      cases h
    · intro h
      cases h
      rfl
    · intro h
      cases h
      rfl

theorem Start_fst_args (m : DevMounter) (env : Env) (tr : List String)
    (p : DevMounter × Option GoError) :
    (m.Start env tr).1 = PanicOr.ok p → p.1.args_ = m.args_ := by
  simp only [DevMounter.Start]
  split
  · intro h
    cases h
  · intro h
    cases h
    next m1 e heq =>
      exact BindArgs_fst_args m env tr _ heq
  · next m1 heq =>
    split
    · intro h
      cases h
      have h1 := BindArgs_fst_args m env tr _ heq
      have h2 := ChangeDevUUID_args m1 env (m.BindArgs env tr).2
      simp_all
    · split
      · intro h
        cases h
        have h1 := BindArgs_fst_args m env tr _ heq
        have h2 := ChangeDevUUID_args m1 env (m.BindArgs env tr).2
        simp_all [MountDevice_fst_state]
      · intro h
        have h1 := BindArgs_fst_args m env tr _ heq
        have h2 := ChangeDevUUID_args m1 env (m.BindArgs env tr).2
        have h3 := Check_fst_state _ env _ p h
        simp_all [MountDevice_fst_state]

/-! ## C1 -/

/-- C1: Start executes BindArgs, ChangeDevUUID, MountDevice, Check
strictly in that order; the first stage that returns a non-nil error ends
the run with exactly that error (not wrapped or reclassified) and with
that stage's trace, so no later stage executes any command; when every
stage succeeds, Start returns a nil error. -/
theorem C1_start_order_shortcircuit (env : Env) (tr : List String)
    (m m1 m2 m3 m4 : DevMounter) (e : GoError)
    (tr1 tr2 tr3 tr4 : List String) :
    (m.BindArgs env tr = (PanicOr.ok (m1, some e), tr1) →
      m.Start env tr = (PanicOr.ok (m1, some e), tr1)) ∧
    (m.BindArgs env tr = (PanicOr.ok (m1, none), tr1) →
      m1.ChangeDevUUID env tr1 = ((m2, some e), tr2) →
      m.Start env tr = (PanicOr.ok (m2, some e), tr2)) ∧
    (m.BindArgs env tr = (PanicOr.ok (m1, none), tr1) →
      m1.ChangeDevUUID env tr1 = ((m2, none), tr2) →
      m2.MountDevice env tr2 = ((m3, some e), tr3) →
      m.Start env tr = (PanicOr.ok (m3, some e), tr3)) ∧
    (m.BindArgs env tr = (PanicOr.ok (m1, none), tr1) →
      m1.ChangeDevUUID env tr1 = ((m2, none), tr2) →
      m2.MountDevice env tr2 = ((m3, none), tr3) →
      m3.Check env tr3 = (PanicOr.ok (m4, some e), tr4) →
      m.Start env tr = (PanicOr.ok (m4, some e), tr4)) ∧
    (m.BindArgs env tr = (PanicOr.ok (m1, none), tr1) →
      m1.ChangeDevUUID env tr1 = ((m2, none), tr2) →
      m2.MountDevice env tr2 = ((m3, none), tr3) →
      m3.Check env tr3 = (PanicOr.ok (m4, none), tr4) →
      m.Start env tr = (PanicOr.ok (m4, none), tr4)) := by
  refine ⟨fun h1 => ?_, fun h1 h2 => ?_, fun h1 h2 h3 => ?_,
    fun h1 h2 h3 h4 => ?_, fun h1 h2 h3 h4 => ?_⟩ <;>
    simp_all [DevMounter.Start]

/-- An environment in which the device probes as ext4 but the UUID
randomization tool exits nonzero, so ChangeDevUUID is the first failing
stage. -/
def envExtGenFail : Env where
  run := fun _ c =>
    if c = "file -sL /dev/sdb1" then
      (0, "/dev/sdb1: Linux ext4 filesystem data", none)
    else (1, "", none)
  newUuid := "9999-eeee"

/-- The session after BindArgs has bound ext4 and the generic mount tool. -/
def mExtBound : DevMounter :=
  { args_ := { dev := "/dev/sdb1", path_ := "/mnt", ctx := "c" },
    caller_ := "mount", fs := "ext4", uuid_ := "" }

theorem C1_start_order_shortcircuit_witness :
    (NewMounterWithArgs "/dev/sdb1" "/mnt" "c").Start envExtGenFail [] =
      (PanicOr.ok (mExtBound, some GoError.ErrGenUUID),
        ["file -sL /dev/sdb1", "tune2fs -U random /dev/sdb1"]) :=
  (C1_start_order_shortcircuit envExtGenFail []
      (NewMounterWithArgs "/dev/sdb1" "/mnt" "c") mExtBound mExtBound
      mExtBound mExtBound GoError.ErrGenUUID
      ["file -sL /dev/sdb1"]
      ["file -sL /dev/sdb1", "tune2fs -U random /dev/sdb1"] [] []).2.1
    (by decide) (by decide)

/-! ## C2 -/

/-- C2: when the probe command exits 0, bindFS lower-cases the output and
binds the first of ext2, ext3, ext4, xfs, ntfs (in that fixed order) whose
name occurs in the output as a substring; if exactly one of the five names
occurs, the bound type is that name with a nil error, and if none occurs
the detector fails with ErrUnKFs. -/
theorem C2_detect_priority (env : Env) (tr : List String) (m : DevMounter)
    (out : String) (le : Option String)
    (h0 : env.run tr (CFile ++ " -sL " ++ m.args_.dev) = (0, out, le)) :
    (m.bindFS env tr =
      ((match [FsExt2, FsExt3, FsExt4, FsXFS_, FsNTFs].find?
          (fun v => goContains (goToLower out) v) with
        | some v => ({ m with fs := v }, none)
        | none => (m, some GoError.ErrUnKFs)),
        tr ++ [CFile ++ " -sL " ++ m.args_.dev])) ∧
    (∀ v ∈ [FsExt2, FsExt3, FsExt4, FsXFS_, FsNTFs],
      goContains (goToLower out) v = true →
      (∀ w ∈ [FsExt2, FsExt3, FsExt4, FsXFS_, FsNTFs], w ≠ v →
        goContains (goToLower out) w = false) →
      (m.bindFS env tr).1 = ({ m with fs := v }, none)) ∧
    ((∀ w ∈ [FsExt2, FsExt3, FsExt4, FsXFS_, FsNTFs],
        goContains (goToLower out) w = false) →
      (m.bindFS env tr).1 = (m, some GoError.ErrUnKFs)) := by
  refine ⟨?_, ?_, ?_⟩
  · simp [DevMounter.bindFS, ExecCmd, h0]
    rcases hf : List.find? (fun v => goContains (goToLower out) v)
        [FsExt2, FsExt3, FsExt4, FsXFS_, FsNTFs] with _ | v <;> simp [hf]
  · intro v hv hcv hothers
    fin_cases hv
    · simp [DevMounter.bindFS, ExecCmd, h0, List.find?, hcv]
    · have e2 := hothers FsExt2 (by simp) (by decide)
      simp [DevMounter.bindFS, ExecCmd, h0, List.find?, hcv, e2]
    · have e2 := hothers FsExt2 (by simp) (by decide)
      have e3 := hothers FsExt3 (by simp) (by decide)
      simp [DevMounter.bindFS, ExecCmd, h0, List.find?, hcv, e2, e3]
    · have e2 := hothers FsExt2 (by simp) (by decide)
      have e3 := hothers FsExt3 (by simp) (by decide)
      have e4 := hothers FsExt4 (by simp) (by decide)
      simp [DevMounter.bindFS, ExecCmd, h0, List.find?, hcv, e2, e3, e4]
    · have e2 := hothers FsExt2 (by simp) (by decide)
      have e3 := hothers FsExt3 (by simp) (by decide)
      have e4 := hothers FsExt4 (by simp) (by decide)
      have ex := hothers FsXFS_ (by simp) (by decide)
      simp [DevMounter.bindFS, ExecCmd, h0, List.find?, hcv, e2, e3, e4, ex]
  · intro hall
    have e2 := hall FsExt2 (by simp)
    have e3 := hall FsExt3 (by simp)
    have e4 := hall FsExt4 (by simp)
    have ex := hall FsXFS_ (by simp)
    have en := hall FsNTFs (by simp)
    simp [DevMounter.bindFS, ExecCmd, h0, List.find?, e2, e3, e4, ex, en]

theorem C2_detect_priority_witness :
    ((NewMounterWithArgs "/dev/sdb1" "/mnt" "c").bindFS envExtGenFail []).1 =
      ({ NewMounterWithArgs "/dev/sdb1" "/mnt" "c" with fs := "ext4" },
        none) :=
  (C2_detect_priority envExtGenFail []
      (NewMounterWithArgs "/dev/sdb1" "/mnt" "c")
      "/dev/sdb1: Linux ext4 filesystem data" none (by decide)).2.1
    FsExt4 (by decide) (by decide) (by decide)

/-! ## C3 -/

/-- The command line of the registration mount sub-step of changeXFS
(read-write with the nouuid option), exactly as Mount builds it for a
non-ntfs filesystem type. -/
def xfsRegCmd (m : DevMounter) : String :=
  CMount ++ " " ++ "-o rw,nouuid" ++ " " ++ m.args_.dev ++ " " ++ m.args_.path_

/-- The command line of the unmount sub-step of changeXFS (the inner
closure unmounts the device path). -/
def xfsUmountCmd (m : DevMounter) : String := CUMount ++ " " ++ m.args_.dev

/-- The command line of the UUID-set sub-step of changeXFS. -/
def xfsSetCmd (env : Env) (m : DevMounter) : String :=
  CXFSAdmin ++ " -U " ++ env.newUuid ++ " " ++ m.args_.dev

/-- C3: the XFS strategy runs the registration mount (read-write, nouuid),
then the unmount, then the UUID-set operation, in that order; if the
registration mount fails the strategy returns ErrMount having executed
only the mount command, if the unmount fails it returns ErrUMount having
executed only the mount and unmount commands, and if the UUID-set fails it
returns ErrGenUUID; the last conjunct identifies each executed command by
its tool, so in the two failure cases the UUID-set tool is never invoked. -/
theorem C3_xfs_strategy_order (env : Env) (tr : List String)
    (m : DevMounter) (hfs : m.fs = FsXFS_) :
    ((env.run tr (xfsRegCmd m)).1 ≠ 0 →
      m.changeXFS env tr =
        ((m, some GoError.ErrMount), tr ++ [xfsRegCmd m])) ∧
    ((env.run tr (xfsRegCmd m)).1 = 0 →
      (env.run (tr ++ [xfsRegCmd m]) (xfsUmountCmd m)).1 ≠ 0 →
      m.changeXFS env tr =
        ((m, some GoError.ErrUMount), tr ++ [xfsRegCmd m, xfsUmountCmd m])) ∧
    ((env.run tr (xfsRegCmd m)).1 = 0 →
      (env.run (tr ++ [xfsRegCmd m]) (xfsUmountCmd m)).1 = 0 →
      (env.run (tr ++ [xfsRegCmd m, xfsUmountCmd m]) (xfsSetCmd env m)).1 ≠ 0 →
      m.changeXFS env tr =
        ((m, some GoError.ErrGenUUID),
          tr ++ [xfsRegCmd m, xfsUmountCmd m, xfsSetCmd env m])) ∧
    ((env.run tr (xfsRegCmd m)).1 = 0 →
      (env.run (tr ++ [xfsRegCmd m]) (xfsUmountCmd m)).1 = 0 →
      (env.run (tr ++ [xfsRegCmd m, xfsUmountCmd m]) (xfsSetCmd env m)).1 = 0 →
      m.changeXFS env tr =
        ((m, none), tr ++ [xfsRegCmd m, xfsUmountCmd m, xfsSetCmd env m])) ∧
    (goStartsWith (xfsRegCmd m) CMount = true ∧
      goStartsWith (xfsUmountCmd m) CUMount = true ∧
      goStartsWith (xfsSetCmd env m) CXFSAdmin = true ∧
      goStartsWith (xfsRegCmd m) CXFSAdmin = false ∧
      goStartsWith (xfsUmountCmd m) CXFSAdmin = false) := by
  refine ⟨fun h1 => ?_, fun h1 h2 => ?_, fun h1 h2 h3 => ?_,
    fun h1 h2 h3 => ?_, ?_, ?_, ?_, ?_, ?_⟩
  · simp_all [DevMounter.changeXFS, Mount, ExecCmd, xfsRegCmd,
      FsXFS_, FsNTFs]
  · simp_all [DevMounter.changeXFS, Mount, UMount, ExecCmd, xfsRegCmd,
      xfsUmountCmd, FsXFS_, FsNTFs]
  · simp_all [DevMounter.changeXFS, Mount, UMount, GenXFSDevUUID, ExecCmd,
      xfsRegCmd, xfsUmountCmd, xfsSetCmd, FsXFS_, FsNTFs]
  · simp_all [DevMounter.changeXFS, Mount, UMount, GenXFSDevUUID, ExecCmd,
      xfsRegCmd, xfsUmountCmd, xfsSetCmd, FsXFS_, FsNTFs]
  · simp [xfsRegCmd, goStartsWith, CMount, String.data_append,
      List.isPrefixOf_iff_prefix, List.append_assoc]
  · simp [xfsUmountCmd, goStartsWith, CUMount, String.data_append,
      List.isPrefixOf_iff_prefix, List.append_assoc]
  · simp [xfsSetCmd, goStartsWith, CXFSAdmin, String.data_append,
      List.isPrefixOf_iff_prefix, List.append_assoc]
  · simp [xfsRegCmd, goStartsWith, CXFSAdmin, CMount, String.data_append,
      List.isPrefixOf]
  · simp [xfsUmountCmd, goStartsWith, CXFSAdmin, CUMount, String.data_append,
      List.isPrefixOf]

/-- An environment for the XFS strategy in which the registration mount
exits nonzero. -/
def envXfsRegFail : Env where
  run := fun _ _ => (1, "", none)
  newUuid := "9999-eeee"

/-- A session whose filesystem type has been bound to xfs. -/
def mXfsBound : DevMounter :=
  { args_ := { dev := "/dev/sdc1", path_ := "/data", ctx := "c" },
    caller_ := "mount", fs := "xfs", uuid_ := "" }

theorem C3_xfs_strategy_order_witness :
    mXfsBound.changeXFS envXfsRegFail [] =
      ((mXfsBound, some GoError.ErrMount),
        ["mount -o rw,nouuid /dev/sdc1 /data"]) := by
  have h := (C3_xfs_strategy_order envXfsRegFail [] mXfsBound rfl).1
    (by decide)
  exact h.trans (by decide)

/-! ## C4 -/

/-- The command line of the ext-family UUID randomize sub-step. -/
def extRandCmd (m : DevMounter) : String :=
  CTune2FS ++ " -U random " ++ m.args_.dev

/-- The command line of the UUID query sub-step (QueryDeviceUUID). -/
def extQueryCmd (m : DevMounter) : String := CBlkID ++ " | grep " ++ m.args_.dev

/-- An environment in which the randomize tool succeeds and the UUID
query prints a uuid= token whose quoted value is empty. -/
def envExtEmptyUuid : Env where
  run := fun _ c =>
    if c = "tune2fs -U random /dev/sdb1" then (0, "", none)
    else if c = "blkid | grep /dev/sdb1" then
      (0, "/dev/sdb1: UUID=\"\" TYPE=\"ext4\"", none)
    else (1, "", none)
  newUuid := "n"

/-- C4 counterexample: with a query output whose uuid= token carries an
empty quoted value, the ext strategy succeeds (nil error) yet the
recorded session UUID is the empty string, so the strategy does not
always record a non-empty UUID on success. -/
theorem C4_ext_nonempty_counterexample :
    (mExtBound.changeEXT envExtEmptyUuid []).1.2 = none ∧
    (mExtBound.changeEXT envExtEmptyUuid []).1.1.uuid_ = "" := by decide

/-- C4 amended: if the randomize command fails the strategy returns
ErrGenUUID and the query command is never invoked (the trace gains only
the randomize command); if the randomize succeeds but the query exits
nonzero or its output has no quoted uuid= capture, the strategy returns
ErrQueryUUID (storing an empty string); if both succeed the session
records exactly the captured string, which is the text between the
quotes and may be empty. -/
theorem C4_ext_strategy (env : Env) (tr : List String) (m : DevMounter)
    (out : String) (le : Option String) (cap : List Char) :
    ((env.run tr (extRandCmd m)).1 ≠ 0 →
      m.changeEXT env tr =
        ((m, some GoError.ErrGenUUID), tr ++ [extRandCmd m])) ∧
    ((env.run tr (extRandCmd m)).1 = 0 →
      (env.run (tr ++ [extRandCmd m]) (extQueryCmd m)).1 ≠ 0 →
      m.changeEXT env tr =
        (({ m with uuid_ := "" }, some GoError.ErrQueryUUID),
          tr ++ [extRandCmd m, extQueryCmd m])) ∧
    ((env.run tr (extRandCmd m)).1 = 0 →
      env.run (tr ++ [extRandCmd m]) (extQueryCmd m) = (0, out, le) →
      findUuidCapture (goToLower out).data = none →
      m.changeEXT env tr =
        (({ m with uuid_ := "" }, some GoError.ErrQueryUUID),
          tr ++ [extRandCmd m, extQueryCmd m])) ∧
    ((env.run tr (extRandCmd m)).1 = 0 →
      env.run (tr ++ [extRandCmd m]) (extQueryCmd m) = (0, out, le) →
      findUuidCapture (goToLower out).data = some cap →
      m.changeEXT env tr =
        (({ m with uuid_ := String.mk cap }, none),
          tr ++ [extRandCmd m, extQueryCmd m])) ∧
    (goStartsWith (extRandCmd m) CTune2FS = true ∧
      goStartsWith (extQueryCmd m) CBlkID = true ∧
      goStartsWith (extRandCmd m) CBlkID = false) := by
  refine ⟨fun h1 => ?_, fun h1 h2 => ?_, fun h1 h2 h3 => ?_,
    fun h1 h2 h3 => ?_, ?_, ?_, ?_⟩
  · simp_all [DevMounter.changeEXT, GenExtDevUUID, ExecCmd, extRandCmd]
  · simp_all [DevMounter.changeEXT, GenExtDevUUID, QueryDeviceUUID, ExecCmd,
      extRandCmd, extQueryCmd]
  · simp_all [DevMounter.changeEXT, GenExtDevUUID, QueryDeviceUUID, ExecCmd,
      extRandCmd, extQueryCmd]
  · simp_all [DevMounter.changeEXT, GenExtDevUUID, QueryDeviceUUID, ExecCmd,
      extRandCmd, extQueryCmd]
  · simp [extRandCmd, goStartsWith, CTune2FS, String.data_append,
      List.isPrefixOf_iff_prefix, List.append_assoc]
  · simp [extQueryCmd, goStartsWith, CBlkID, String.data_append,
      List.isPrefixOf_iff_prefix, List.append_assoc]
  · simp [extRandCmd, goStartsWith, CBlkID, CTune2FS, String.data_append,
      List.isPrefixOf]

/-- An environment in which randomize succeeds and the query returns a
normal uuid= token. -/
def envExtHappy : Env where
  run := fun _ c =>
    if c = "tune2fs -U random /dev/sdb1" then (0, "", none)
    else if c = "blkid | grep /dev/sdb1" then
      (0, "/dev/sdb1: UUID=\"1234-ABCD\" TYPE=\"ext4\"", none)
    else (1, "", none)
  newUuid := "n"

theorem C4_ext_strategy_witness :
    mExtBound.changeEXT envExtHappy [] =
      (({ mExtBound with uuid_ := "1234-abcd" }, none),
        ["tune2fs -U random /dev/sdb1", "blkid | grep /dev/sdb1"]) := by
  have h := (C4_ext_strategy envExtHappy [] mExtBound
      "/dev/sdb1: UUID=\"1234-ABCD\" TYPE=\"ext4\"" none
      "1234-abcd".data).2.2.2.1 (by decide) (by decide) (by decide)
  exact h.trans (by decide)

/-! ## C5 -/

/-- infixCheck decides the contiguous-sublist relation, so goContains is
faithful to strings.Contains. -/
theorem infixCheck_iff (sub l : List Char) :
    infixCheck sub l = true ↔ sub <:+: l := by
  induction l with
  | nil => simp [infixCheck, List.isEmpty_iff]
  | cons c rest ih =>
    rw [List.infix_cons_iff]
    simp [infixCheck, List.isPrefixOf_iff_prefix, ih]

theorem goContains_iff (s sub : String) :
    goContains s sub = true ↔ sub.data <:+: s.data :=
  infixCheck_iff sub.data s.data

/-- The whitespace-delimited tokens of a mount listing; used only to
state what a whole-token occurrence would be. -/
def listingTokens : List Char → List (List Char)
  | [] => [[]]
  | c :: rest =>
    if c = ' ' ∨ c = '\n' then [] :: listingTokens rest
    else
      match listingTokens rest with
      | [] => [[c]]
      | t :: ts => (c :: t) :: ts

/-- An environment whose mount listing contains the queried device path
only as the suffix of a longer, unrelated path. -/
def envListingSuffix : Env where
  run := fun _ c =>
    if c = "mount" then (0, "x/dev/sdb1 on /mnt type ext4 (rw)", none)
    else (1, "", none)
  newUuid := "n"

/-- C5 counterexample: the listing holds the queried string only inside
the longer token x/dev/sdb1 (it is not a whitespace-delimited token of
the listing), yet IsMount reports it mounted, because the check only
requires the queried string followed by a space to occur somewhere. -/
theorem C5_whole_token_counterexample :
    (IsMount envListingSuffix [] "/dev/sdb1").1 = PanicOr.ok true ∧
    "/dev/sdb1".data ∉
      listingTokens "x/dev/sdb1 on /mnt type ext4 (rw)".data := by decide

/-- C5 amended: when the listing command exits 0, IsMount returns true
exactly when the queried string immediately followed by a space occurs as
a substring of the listing; this rejects matches where the query is
followed by further path characters, but it does accept a query that is
the suffix of a longer token. -/
theorem C5_ismount_match (env : Env) (tr : List String) (p out : String)
    (le : Option String) (h0 : env.run tr CMount = (0, out, le)) :
    IsMount env tr p =
      (PanicOr.ok (goContains out (p ++ " ")), tr ++ [CMount]) ∧
    (goContains out (p ++ " ") = true ↔ (p ++ " ").data <:+: out.data) := by
  constructor
  · rcases hg : goContains out (p ++ " ") with _ | _ <;>
      simp [IsMount, ExecCmd, h0, hg]
  · exact goContains_iff out (p ++ " ")

theorem C5_ismount_match_witness :
    IsMount envListingSuffix [] "/dev/vg/lv" =
      (PanicOr.ok false, ["mount"]) := by
  have h := (C5_ismount_match envListingSuffix [] "/dev/vg/lv"
      "x/dev/sdb1 on /mnt type ext4 (rw)" none (by decide)).1
  exact h.trans (by decide)

/-! ## C6 -/

/-- An environment in which the file probe starts fine but exits 1, the
normal nonzero-exit case, in which the executor reports no launch
error. -/
def envProbeExitNonzero : Env where
  run := fun _ c =>
    if c = "file -sL /dev/sdb1" then (1, "", none) else (0, "", none)
  newUuid := "n"

/-- C6 evaluated at the failing input: when the probe command exits
nonzero and the executor reports no launch error, bindFS returns the nil
launch error, so detection succeeds instead of failing; the filesystem
field keeps its zero value and BindArgs then panics inside GetCallerByFS
rather than returning any error at all. -/
theorem C6_probe_nonzero_detection_succeeds :
    ((NewMounterWithArgs "/dev/sdb1" "/mnt" "c").bindFS
        envProbeExitNonzero []).1 =
      (NewMounterWithArgs "/dev/sdb1" "/mnt" "c", none) ∧
    ((NewMounterWithArgs "/dev/sdb1" "/mnt" "c").BindArgs
        envProbeExitNonzero []).1 =
      PanicOr.panicked "unsupported file system type" := by decide

/-! ## C7 -/

/-- C7: GetCallerByFS maps every supported filesystem type to exactly one
tool (the generic mount tool for the ext family and xfs, the NTFS tool
for ntfs) and panics for every other string; Mount makes the same tool
choice, issuing a command line headed by ntfs-3g exactly when the type is
ntfs and by the generic mount tool otherwise, which agrees with
GetCallerByFS on the whole supported set. -/
theorem C7_caller_total (fs dev p c : String) (env : Env)
    (tr : List String) :
    GetCallerByFS FsExt2 = PanicOr.ok CMount ∧
    GetCallerByFS FsExt3 = PanicOr.ok CMount ∧
    GetCallerByFS FsExt4 = PanicOr.ok CMount ∧
    GetCallerByFS FsXFS_ = PanicOr.ok CMount ∧
    GetCallerByFS FsNTFs = PanicOr.ok CNTFs3g ∧
    (fs ∉ [FsExt2, FsExt3, FsExt4, FsXFS_, FsNTFs] →
      GetCallerByFS fs = PanicOr.panicked "unsupported file system type") ∧
    ((Mount env tr fs dev p c).2 =
      tr ++ [(if fs = FsNTFs then CNTFs3g else CMount) ++ " " ++ c ++
        " " ++ dev ++ " " ++ p]) ∧
    (fs ∈ [FsExt2, FsExt3, FsExt4, FsXFS_, FsNTFs] →
      GetCallerByFS fs =
        PanicOr.ok (if fs = FsNTFs then CNTFs3g else CMount)) := by
  refine ⟨by decide, by decide, by decide, by decide, by decide,
    ?_, ?_, ?_⟩
  · intro h
    simp only [List.mem_cons, List.not_mem_nil, or_false, not_or] at h
    obtain ⟨h1, h2, h3, h4, h5⟩ := h
    simp [GetCallerByFS, h1, h2, h3, h4, h5]
  · simp only [Mount, ExecCmd]
    split <;> split <;> rfl
  · intro h
    fin_cases h <;> decide

theorem C7_caller_total_witness :
    GetCallerByFS "vfat" = PanicOr.panicked "unsupported file system type" :=
  (C7_caller_total "vfat" "d" "p" "c" envProbeExitNonzero []).2.2.2.2.2.1
    (by decide)

/-! ## C8 -/

/-- C8: with the mount-listing command exiting 0 on both queries, Check
succeeds when the device token occurs in the first listing (the
disjunction short-circuits, so the second query is then not issued), or
when the target-path token occurs in the second listing; if neither
occurs, Check fails with ErrMount.  Check never consults the result of
the preceding mount command, so this holds in any run, in particular one
in which that command exited 0. -/
theorem C8_check_either (env : Env) (tr : List String) (m : DevMounter)
    (out1 out2 : String) (le1 le2 : Option String)
    (h1 : env.run tr CMount = (0, out1, le1))
    (h2 : env.run (tr ++ [CMount]) CMount = (0, out2, le2)) :
    (goContains out1 (m.args_.dev ++ " ") = true →
      m.Check env tr = (PanicOr.ok (m, none), tr ++ [CMount])) ∧
    (goContains out1 (m.args_.dev ++ " ") = false →
      goContains out2 (m.args_.path_ ++ " ") = true →
      m.Check env tr = (PanicOr.ok (m, none), tr ++ [CMount, CMount])) ∧
    (goContains out1 (m.args_.dev ++ " ") = false →
      goContains out2 (m.args_.path_ ++ " ") = false →
      m.Check env tr =
        (PanicOr.ok (m, some GoError.ErrMount), tr ++ [CMount, CMount])) := by
  refine ⟨fun g1 => ?_, fun g1 g2 => ?_, fun g1 g2 => ?_⟩
  · simp [DevMounter.Check, IsMount, ExecCmd, h1, g1]
  · simp [DevMounter.Check, IsMount, ExecCmd, h1, h2, g1, g2]
  · simp [DevMounter.Check, IsMount, ExecCmd, h1, h2, g1, g2]

/-- An environment in which the device mount command exits 0 yet the
mount listing never shows the device or the target path. -/
def envCheckFail : Env where
  run := fun _ c =>
    if c = "mount  /dev/sdb1 /mnt" then (0, "", none)
    else if c = "mount" then (0, "/dev/sda1 on / type ext4 (rw)", none)
    else (1, "", none)
  newUuid := "n"

theorem C8_check_either_witness :
    envCheckFail.run [] "mount  /dev/sdb1 /mnt" = (0, "", none) ∧
    mExtBound.Check envCheckFail [] =
      (PanicOr.ok (mExtBound, some GoError.ErrMount), ["mount", "mount"]) := by
  constructor
  · decide
  · have h := (C8_check_either envCheckFail [] mExtBound
        "/dev/sda1 on / type ext4 (rw)" "/dev/sda1 on / type ext4 (rw)"
        none none (by decide) (by decide)).2.2 (by decide) (by decide)
    exact h.trans (by decide)

/-! ## C9 -/

/-- An environment in which every stage before Check succeeds but the
bare mount-listing command exits nonzero. -/
def envListFail : Env where
  run := fun _ c =>
    if c = "file -sL /dev/sdb1" then
      (0, "/dev/sdb1: Linux ext4 filesystem data", none)
    else if c = "tune2fs -U random /dev/sdb1" then (0, "", none)
    else if c = "blkid | grep /dev/sdb1" then
      (0, "/dev/sdb1: UUID=\"1234-ABCD\" TYPE=\"ext4\"", none)
    else if c = "mount  /dev/sdb1 /mnt" then (0, "", none)
    else (1, "", none)
  newUuid := "n"

/-- C9: whenever the mount-listing command exits nonzero, IsMount neither
returns a boolean nor an error: it panics with the tool name; the Check
stage then terminates by that panic, and a whole orchestration run can
end in the panic, as the concrete run in the last conjunct shows. -/
theorem C9_ismount_panics (env : Env) (tr : List String) (p : String)
    (m : DevMounter) (h : (env.run tr CMount).1 ≠ 0) :
    IsMount env tr p = (PanicOr.panicked CMount, tr ++ [CMount]) ∧
    m.Check env tr = (PanicOr.panicked CMount, tr ++ [CMount]) ∧
    (NewMounterWithArgs "/dev/sdb1" "/mnt" "c").Start envListFail [] =
      (PanicOr.panicked CMount,
        ["file -sL /dev/sdb1", "tune2fs -U random /dev/sdb1",
          "blkid | grep /dev/sdb1", "mount  /dev/sdb1 /mnt", "mount"]) := by
  refine ⟨?_, ?_, by decide⟩
  · simp [IsMount, ExecCmd, h]
  · simp [DevMounter.Check, IsMount, ExecCmd, h]

theorem C9_ismount_panics_witness :
    IsMount envListFail [] "/dev/sdb1" =
      (PanicOr.panicked "mount", ["mount"]) := by
  have h := (C9_ismount_panics envListFail [] "/dev/sdb1"
      mExtBound (by decide)).1
  exact h.trans (by decide)

/-! ## C10 -/

/-- C10: no stage mutates the input tuple stored at construction: bindFS,
ChangeDevUUID and MountDevice return a state with the args_ field intact
(the other fields, the filesystem type, the selected tool and the
recorded UUID, are the only ones a stage writes), BindArgs and Check
preserve it in every non-panicking outcome, and any non-panicking Start
of a freshly constructed session ends with args_ still equal to the
constructor inputs. -/
theorem C10_request_immutable (env : Env) (tr tr' : List String)
    (dev p c : String) (m m' : DevMounter) (e : Option GoError) :
    ((m.bindFS env tr).1.1).args_ = m.args_ ∧
    (m.BindArgs env tr = (PanicOr.ok (m', e), tr') → m'.args_ = m.args_) ∧
    ((m.ChangeDevUUID env tr).1.1).args_ = m.args_ ∧
    (m.MountDevice env tr).1.1 = m ∧
    (m.Check env tr = (PanicOr.ok (m', e), tr') → m'.args_ = m.args_) ∧
    ((NewMounterWithArgs dev p c).Start env tr = (PanicOr.ok (m', e), tr') →
      m'.args_ = { dev := dev, path_ := p, ctx := c }) := by
  refine ⟨bindFS_args m env tr, ?_, ChangeDevUUID_args m env tr,
    MountDevice_fst_state m env tr, ?_, ?_⟩
  · intro h
    exact BindArgs_fst_args m env tr (m', e) (by rw [h])
  · intro h
    have hs : m' = m := Check_fst_state m env tr (m', e) (by rw [h])
    rw [hs]
  · intro h
    exact Start_fst_args (NewMounterWithArgs dev p c) env tr (m', e)
      (by rw [h])

/-- An environment in which the whole pipeline succeeds end to end. -/
def envFullHappy : Env where
  run := fun _ c =>
    if c = "file -sL /dev/sdb1" then
      (0, "/dev/sdb1: Linux ext4 filesystem data", none)
    else if c = "tune2fs -U random /dev/sdb1" then (0, "", none)
    else if c = "blkid | grep /dev/sdb1" then
      (0, "/dev/sdb1: UUID=\"1234-ABCD\" TYPE=\"ext4\"", none)
    else if c = "mount  /dev/sdb1 /mnt" then (0, "", none)
    else if c = "mount" then
      (0, "/dev/sdb1 on /mnt type ext4 (rw)", none)
    else (1, "", none)
  newUuid := "n"

theorem C10_request_immutable_witness :
    ({ mExtBound with uuid_ := "1234-abcd" }).args_ =
      { dev := "/dev/sdb1", path_ := "/mnt", ctx := "c" } :=
  (C10_request_immutable envFullHappy []
      ["file -sL /dev/sdb1", "tune2fs -U random /dev/sdb1",
        "blkid | grep /dev/sdb1", "mount  /dev/sdb1 /mnt", "mount"]
      "/dev/sdb1" "/mnt" "c" mExtBound
      { mExtBound with uuid_ := "1234-abcd" } none).2.2.2.2.2 (by decide)

end NewidMount
